import Mathlib

/-!
# Verification of `src/configure.py` (BlenderCustomSettings)

Shallow embedding of the single source file `src/configure.py`.

The script defines a class `BlenderCustomSettings` whose constructor computes
`self.ver = float(bpy.app.version_string[:4])` and `self.supports = [2.83]`,
a version guard `check_version`, a filtering helper `get_spaces`, five scene
setters and one preferences setter, and an entry point that runs all six
setters when the version is supported and otherwise prints
"BlenderCustomSettings: Unsupported version!".

Modelling choices:
* Python floats are modelled by `PyFloat`: an exact decimal
  `finite num scale` of value `num / 10 ^ scale`, an infinity, or a NaN.
  Every float literal in the source and every accepted decimal numeral is an
  exact decimal, and the only float comparison the program performs is
  equality with `2.83`; two syntactically distinct numerals of at most four
  characters denote decimals that are far apart relative to double
  precision, so exact value equality of the decimals coincides with equality
  of the correctly rounded doubles.  `pyEq` is Python's `==` on these values
  (`NaN` equal to nothing); `PyFloat.toRatOfFinite` gives the rational value.
* `float(str)` (which can raise `ValueError`) is modelled by
  `pyFloatOfString`, following CPython's accepted syntax: optional ASCII
  whitespace around the token, an optional sign, `inf`/`infinity`/`nan`
  case-insensitively, or a decimal numeral with optional fractional part and
  exponent, where an underscore may stand between two digits.
* Python's slice `s[:4]` is modelled by `pySlice4`, taking the first four
  characters (code points) of the string.
* The mutable host state owned by Blender (`bpy.…`) is modelled by the
  structure `Host`; each setter becomes a function on `Host`.  In-place
  mutation of the space objects returned by `get_spaces` is modelled as a map
  over the host's spaces guarded by exactly the predicates `get_spaces`
  applies.  Fallible host accesses performed by the source
  (`pref.themes[0]`, `face_select[3]`, `pref.addons["cycles"]`) are modelled
  in `Except`; an `Except.error` result stands for an uncaught Python
  exception (the claims below never inspect host state after an error).
-/

deriving instance DecidableEq for Except

/-- Python exception kinds that operations of this script can raise. -/
inductive PyErr where
  | valueError
  | indexError
  | keyError
  deriving DecidableEq, Repr

/-- Value of a Python `float`: an exact decimal `num / 10 ^ scale` standing
for a finite double, or a signed infinity or NaN (which `float(str)` can
also produce). -/
inductive PyFloat where
  | finite (num : Int) (scale : Nat)
  | inf (neg : Bool)
  | nan
  deriving DecidableEq, Repr

/-- Rational value of a finite `PyFloat` (junk `0` on `inf`/`nan`). -/
def PyFloat.toRatOfFinite : PyFloat → ℚ
  | .finite m s => (m : ℚ) / 10 ^ s
  | _ => 0

/-- Python `==` on floats: finite values compare by value, infinities by
sign, and NaN is equal to nothing (not even itself). -/
def pyEq : PyFloat → PyFloat → Bool
  | .finite m1 s1, .finite m2 s2 => m1 * (10 : Int) ^ s2 == m2 * (10 : Int) ^ s1
  | .inf a, .inf b => a == b
  | _, _ => false

/-- Python `x in l` for a list of floats: membership via `==`. -/
def pyIn (x : PyFloat) (l : List PyFloat) : Bool :=
  l.any (fun y => pyEq x y)

/-- ASCII whitespace stripped by Python's `float(str)` around the token. -/
def pyIsSpace (c : Char) : Bool :=
  c == ' ' || c == '\t' || c == '\n' || c == '\r' || c == '\x0b' || c == '\x0c'

/-- Numeric value of a decimal digit character. -/
def digitVal (c : Char) : Nat := c.toNat - 48

/-- Consume further digits of a digit run, where an underscore is allowed
only between two digits.  `acc` is the value read so far; returns the value,
the number of additional digits consumed and the unconsumed rest. -/
def pyDigitsRest : List Char → Nat → Nat × Nat × List Char
  | [], acc => (acc, 0, [])
  | c :: cs, acc =>
    if c.isDigit then
      let r := pyDigitsRest cs (acc * 10 + digitVal c)
      (r.1, r.2.1 + 1, r.2.2)
    else if c == '_' then
      match cs with
      | d :: _ =>
        if d.isDigit then pyDigitsRest cs acc
        else (acc, 0, c :: cs)
      | [] => (acc, 0, c :: cs)
    else (acc, 0, c :: cs)

/-- Parse a digit run that must start with a digit (CPython's grammar for
integer parts, fractional parts and exponents, underscores included):
returns the value, the digit count and the rest, or `none` if the first
character is not a digit. -/
def pyRunOfDigits (l : List Char) : Option (Nat × Nat × List Char) :=
  match l with
  | c :: cs =>
    if c.isDigit then
      let r := pyDigitsRest cs (digitVal c)
      some (r.1, r.2.1 + 1, r.2.2)
    else none
  | [] => none

/-- Parse an optional exponent after a mantissa worth `mant / 10 ^ scale`;
the whole remaining input must be consumed, otherwise the numeral is
rejected.  Returns the adjusted `(mantissa, scale)`. -/
def pyDecimalExp (mant : Nat) (scale : Nat) (rest : List Char) :
    Option (Nat × Nat) :=
  match rest with
  | [] => some (mant, scale)
  | c :: r =>
    if c == 'e' || c == 'E' then
      let sr : Bool × List Char :=
        match r with
        | '+' :: rr => (false, rr)
        | '-' :: rr => (true, rr)
        | _ => (false, r)
      match pyRunOfDigits sr.2 with
      | some (e, _, r3) =>
        if r3.isEmpty then
          some (if sr.1 then (mant, scale + e) else (mant * 10 ^ e, scale))
        else none
      | none => none
    else none

/-- Parse a decimal numeral (after the optional sign has been removed):
`digits [. [digits]] [exp]` or `. digits [exp]`, consuming the whole
input.  Returns the value as `(mantissa, scale)` worth
`mantissa / 10 ^ scale`. -/
def pyDecimal (l : List Char) : Option (Nat × Nat) :=
  match pyRunOfDigits l with
  | some (ip, _, rest) =>
    match rest with
    | '.' :: r2 =>
      match pyRunOfDigits r2 with
      | some (fp, fn, r3) => pyDecimalExp (ip * 10 ^ fn + fp) fn r3
      | none => pyDecimalExp ip 0 r2
    | _ => pyDecimalExp ip 0 rest
  | none =>
    match l with
    | '.' :: r2 =>
      match pyRunOfDigits r2 with
      | some (fp, fn, r3) => pyDecimalExp fp fn r3
      | none => none
    | _ => none

/-- CPython's `float(str)`: strip surrounding whitespace, read an optional
sign, then accept `inf`, `infinity` or `nan` case-insensitively or a decimal
numeral; anything else raises `ValueError`. -/
def pyFloatOfString (s : String) : Except PyErr PyFloat :=
  let l := ((s.data.dropWhile pyIsSpace).reverse.dropWhile pyIsSpace).reverse
  let sl : Bool × List Char :=
    match l with
    | '+' :: r => (false, r)
    | '-' :: r => (true, r)
    | _ => (false, l)
  let low := sl.2.map Char.toLower
  if low == ['i', 'n', 'f'] || low == ['i', 'n', 'f', 'i', 'n', 'i', 't', 'y'] then
    .ok (.inf sl.1)
  else if low == ['n', 'a', 'n'] then
    .ok .nan
  else
    match pyDecimal sl.2 with
    | some ms => .ok (.finite (if sl.1 then -(ms.1 : Int) else (ms.1 : Int)) ms.2)
    | none => .error .valueError

/-- Python's `s[:4]`: the first four characters of `s` (all of `s` when it is
shorter). -/
def pySlice4 (s : String) : String :=
  String.mk (s.data.take 4)

/-- The fields of the `BlenderCustomSettings` object: `self.ver` and
`self.supports`, as set by `__init__`. -/
structure BlenderCustomSettings where
  ver : PyFloat
  supports : List PyFloat
  deriving DecidableEq, Repr

/-- The float literal `2.83` of the source's `self.supports = [2.83]`. -/
def supported283 : PyFloat := .finite 283 2

/-- `__init__`: `self.ver = float(bpy.app.version_string[:4])`;
`self.supports = [2.83]`.  The `float` call can raise `ValueError`. -/
def BlenderCustomSettings.init (version_string : String) :
    Except PyErr BlenderCustomSettings :=
  match pyFloatOfString (pySlice4 version_string) with
  | .ok v => .ok { ver := v, supports := [supported283] }
  | .error e => .error e

/-- `check_version`: `return self.ver in self.supports`. -/
def BlenderCustomSettings.check_version (b : BlenderCustomSettings) : Bool :=
  pyIn b.ver b.supports

/-- Outcome of constructing the settings object from a host version string
and evaluating the version guard: `Except.error` when the constructor
raises, otherwise the boolean the guard returns. -/
def classifyVersion (version_string : String) : Except PyErr Bool :=
  match BlenderCustomSettings.init version_string with
  | .ok b => .ok b.check_version
  | .error e => .error e

/-!
## Host data model (`bpy.…`)

Structures for the host-owned objects the script reads or mutates.  Numeric
fields assigned Python float literals are `PyFloat`; fields assigned Python
int literals are `Nat`; enum-like fields are `String`.
-/

/-- Viewport shading settings of a `VIEW_3D` space
(`space.shading.…` fields assigned by `setup_scene_shading`). -/
structure ShadingSettings where
  type : String
  light : String
  color_type : String
  show_cavity : Bool
  cavity_type : String
  cavity_ridge_factor : PyFloat
  cavity_valley_factor : PyFloat
  curvature_ridge_factor : PyFloat
  curvature_valley_factor : PyFloat
  deriving DecidableEq, Repr

/-- A UI space (editor) inside an area: the fields of the several space
kinds the script touches, merged into one record. -/
structure Space where
  type : String
  display_mode : String
  clip_start : PyFloat
  clip_end : PyFloat
  shading : ShadingSettings
  show_restrict_column_select : Bool
  show_restrict_column_render : Bool
  font_size : Nat
  deriving DecidableEq, Repr

/-- An area of a screen: its editor type and its spaces. -/
structure Area where
  type : String
  spaces : List Space
  deriving DecidableEq, Repr

/-- A screen (workspace tab): name and areas. -/
structure Screen where
  name : String
  areas : List Area
  deriving DecidableEq, Repr

/-- A camera datablock (`bpy.data.cameras` element). -/
structure Camera where
  clip_start : PyFloat
  clip_end : PyFloat
  lens : PyFloat
  deriving DecidableEq, Repr

/-- `scene.render.…` fields the script assigns. -/
structure RenderSettings where
  engine : String
  threads_mode : String
  tile_x : Nat
  tile_y : Nat
  deriving DecidableEq, Repr

/-- `scene.cycles.…` fields the script assigns. -/
structure SceneCycles where
  feature_set : String
  device : String
  preview_dicing_rate : Nat
  preview_denoising : String
  samples : Nat
  preview_samples : Nat
  use_adaptive_sampling : Bool
  max_bounces : Nat
  diffuse_bounces : Nat
  glossy_bounces : Nat
  transparent_max_bounces : Nat
  transmission_bounces : Nat
  volume_bounces : Nat
  caustics_reflective : Bool
  caustics_refractive : Bool
  use_progressive_refine : Bool
  deriving DecidableEq, Repr

/-- `bpy.context.scene`. -/
structure Scene where
  render : RenderSettings
  cycles : SceneCycles
  deriving DecidableEq, Repr

/-- `view_layer.cycles.…` fields the script assigns. -/
structure ViewLayerCycles where
  use_denoising : Bool
  use_optix_denoising : Bool
  denoising_optix_input_passes : String
  deriving DecidableEq, Repr

/-- `bpy.context.view_layer`. -/
structure ViewLayer where
  cycles : ViewLayerCycles
  deriving DecidableEq, Repr

/-- `pref.view.…` fields the script assigns. -/
structure ViewPrefs where
  ui_scale : PyFloat
  ui_line_width : String
  show_splash : Bool
  show_tooltips : Bool
  show_tooltips_python : Bool
  show_developer_ui : Bool
  language : String
  use_translate_tooltips : Bool
  use_translate_interface : Bool
  use_translate_new_dataname : Bool
  gizmo_size : Nat
  deriving DecidableEq, Repr

/-- `theme.view_3d`: the 3D viewport theme; `face_select` is the RGBA color
array whose component 3 (alpha) the script assigns. -/
structure ThemeView3d where
  face_select : List PyFloat
  deriving DecidableEq, Repr

/-- One entry of `pref.themes`. -/
structure Theme where
  view_3d : ThemeView3d
  deriving DecidableEq, Repr

/-- `pref.inputs.…` fields the script assigns. -/
structure InputPrefs where
  use_numeric_input_advanced : Bool
  mouse_double_click_time : Nat
  drag_threshold_mouse : Nat
  drag_threshold : Nat
  move_threshold : Nat
  ndof_show_guide : Bool
  ndof_pan_yz_swap_axis : Bool
  use_zoom_to_mouse : Bool
  deriving DecidableEq, Repr

/-- Per-addon preferences; the script assigns
`pref.addons["cycles"].preferences.compute_device_type`. -/
structure AddonPreferences where
  compute_device_type : String
  deriving DecidableEq, Repr

/-- `bpy.context.preferences`.  `addons` is the name-indexed addon
collection, modelled as an association list. -/
structure Preferences where
  view : ViewPrefs
  themes : List Theme
  inputs : InputPrefs
  addons : List (String × AddonPreferences)
  deriving DecidableEq, Repr

/-- `kc.preferences` of the default keyconfig. -/
structure KeyConfigPreferences where
  spacebar_action : String
  deriving DecidableEq, Repr

/-- `wm.keyconfigs.default` (always present in the host). -/
structure KeyConfig where
  preferences : KeyConfigPreferences
  deriving DecidableEq, Repr

/-- `bpy.context.window_manager`, reduced to the default keyconfig the
script touches. -/
structure WindowManager where
  keyconfigs_default : KeyConfig
  deriving DecidableEq, Repr

/-- The whole host-owned state visible to the script:
`bpy.app.version_string`, `bpy.data.screens`, `bpy.data.cameras`,
`bpy.context.scene`, `bpy.context.view_layer`, `bpy.context.preferences`
and `bpy.context.window_manager`. -/
structure Host where
  version_string : String
  screens : List Screen
  cameras : List Camera
  scene : Scene
  view_layer : ViewLayer
  preferences : Preferences
  window_manager : WindowManager
  deriving DecidableEq, Repr

/-!
## `get_spaces`
-/

/-- Python truthiness of the `screen_names` argument (`None` or a list):
`if screen_names:` is taken only for a non-`None`, nonempty list. -/
def pyTruthyNames (x : Option (List String)) : Bool :=
  match x with
  | none => false
  | some l => !l.isEmpty

/-- Python truthiness of the `display_mode` argument (`None` or a string):
`if display_mode:` is taken only for a non-`None`, nonempty string. -/
def pyTruthyMode (x : Option String) : Bool :=
  match x with
  | none => false
  | some s => !s.isEmpty

/-- Body of the two inner loops of `get_spaces` for one area that already
passed the `area.type == type_name` filter: filter the area's spaces by
type, then by display mode when one is given. -/
def spacesOfArea (type_name : String) (display_mode : Option String)
    (area : Area) : List Space :=
  let spaces := area.spaces.filter (fun sp => sp.type == type_name)
  if pyTruthyMode display_mode then
    spaces.filter (fun sp => sp.display_mode == display_mode.getD "")
  else spaces

/-- Body of the outer loop of `get_spaces` for one screen that already
passed the screen-name filter. -/
def spacesOfScreen (type_name : String) (display_mode : Option String)
    (screen : Screen) : List Space :=
  (screen.areas.filter (fun area => area.type == type_name)).flatMap
    (spacesOfArea type_name display_mode)

/-- `get_spaces(type_name, display_mode=None, screen_names=None)`: narrow
the screens by name when `screen_names` is truthy, then collect, in
iteration order, the spaces of type `type_name` inside areas of type
`type_name`, filtered by `display_mode` when truthy. -/
def get_spaces (data_screens : List Screen) (type_name : String)
    (display_mode : Option String) (screen_names : Option (List String)) :
    List Space :=
  let screens := data_screens
  let screens :=
    if pyTruthyNames screen_names then
      screens.filter (fun sc => (screen_names.getD []).contains sc.name)
    else screens
  screens.flatMap (spacesOfScreen type_name display_mode)

/-!
## Scene setters

Each setter mutates host objects in place.  Assignments to fields of the
spaces returned by `self.get_spaces(…)` are modelled as a map over the
host's spaces guarded by exactly the predicates `get_spaces` applies to the
corresponding call (the screen-name guard where a screen-name list is
passed, the area- and space-type guards, and the display-mode guard where a
display mode is passed). -/

/-- `setup_scene_cycles`: assignments to `bpy.context.scene` and
`bpy.context.view_layer`, in source order. -/
def setup_scene_cycles (h : Host) : Host :=
  let scene := h.scene
  let scene := { scene with render := { scene.render with engine := "CYCLES" } }
  let scene := { scene with cycles := { scene.cycles with
    feature_set := "EXPERIMENTAL", device := "GPU", preview_dicing_rate := 1 } }
  let view_layer := h.view_layer
  let view_layer := { view_layer with cycles := { view_layer.cycles with
    use_denoising := true, use_optix_denoising := true,
    denoising_optix_input_passes := "RGB_ALBEDO" } }
  let scene := { scene with cycles := { scene.cycles with
    preview_denoising := "NONE",
    samples := 128, preview_samples := 32, use_adaptive_sampling := true } }
  let bounces := 32
  let scene := { scene with cycles := { scene.cycles with
    max_bounces := bounces, diffuse_bounces := bounces,
    glossy_bounces := bounces, transparent_max_bounces := bounces,
    transmission_bounces := bounces, volume_bounces := bounces,
    caustics_reflective := true, caustics_refractive := true } }
  let scene := { scene with render := { scene.render with
    threads_mode := "AUTO", tile_x := 256, tile_y := 256 } }
  let scene := { scene with cycles := { scene.cycles with
    use_progressive_refine := false } }
  { h with scene := scene, view_layer := view_layer }

/-- `target_screens` of `setup_scene_shading`. -/
def shadingTargetScreens : List String :=
  ["Layout", "Modeling", "Sculpting", "UV Editing", "Animation", "Scripting"]

/-- The per-space assignments of `setup_scene_shading`. -/
def applyShading (sp : Space) : Space :=
  { sp with shading := { sp.shading with
      type := "SOLID", light := "STUDIO", color_type := "RANDOM",
      show_cavity := true, cavity_type := "BOTH",
      cavity_ridge_factor := .finite 8 1, cavity_valley_factor := .finite 10 1,
      curvature_ridge_factor := .finite 8 1,
      curvature_valley_factor := .finite 10 1 } }

/-- `setup_scene_shading`: mutate every space of
`get_spaces("VIEW_3D", screen_names=target_screens)`. -/
def setup_scene_shading (h : Host) : Host :=
  { h with screens := h.screens.map (fun sc =>
      if shadingTargetScreens.contains sc.name then
        { sc with areas := sc.areas.map (fun a =>
            if a.type == "VIEW_3D" then
              { a with spaces := a.spaces.map (fun sp =>
                  if sp.type == "VIEW_3D" then applyShading sp else sp) }
            else a) }
      else sc) }

/-- The per-space assignments of `setup_scene_outliner`. -/
def applyOutliner (sp : Space) : Space :=
  { sp with show_restrict_column_select := true,
            show_restrict_column_render := true }

/-- `setup_scene_outliner`: mutate every space of
`get_spaces("OUTLINER", display_mode="VIEW_LAYER")`. -/
def setup_scene_outliner (h : Host) : Host :=
  { h with screens := h.screens.map (fun sc =>
      { sc with areas := sc.areas.map (fun a =>
          if a.type == "OUTLINER" then
            { a with spaces := a.spaces.map (fun sp =>
                if sp.type == "OUTLINER" && sp.display_mode == "VIEW_LAYER" then
                  applyOutliner sp
                else sp) }
          else a) }) }

/-- The per-space assignments of `setup_scene_clipping`
(`start, end = 0.001, 1000`). -/
def applyClipping (sp : Space) : Space :=
  { sp with clip_start := .finite 1 3, clip_end := .finite 1000 0 }

/-- `setup_scene_clipping`: mutate every space of `get_spaces("VIEW_3D")`
and every camera of `bpy.data.cameras`. -/
def setup_scene_clipping (h : Host) : Host :=
  { h with
    screens := h.screens.map (fun sc =>
      { sc with areas := sc.areas.map (fun a =>
          if a.type == "VIEW_3D" then
            { a with spaces := a.spaces.map (fun sp =>
                if sp.type == "VIEW_3D" then applyClipping sp else sp) }
          else a) }),
    cameras := h.cameras.map (fun cam =>
      { cam with clip_start := .finite 1 3, clip_end := .finite 1000 0 }) }

/-- `setup_scene_scripting`: mutate every space of `get_spaces("CONSOLE")`:
`space.font_size = 16`. -/
def setup_scene_scripting (h : Host) : Host :=
  { h with screens := h.screens.map (fun sc =>
      { sc with areas := sc.areas.map (fun a =>
          if a.type == "CONSOLE" then
            { a with spaces := a.spaces.map (fun sp =>
                if sp.type == "CONSOLE" then { sp with font_size := 16 } else sp) }
          else a) }) }

/-- `setup_preferences`: assignments to `bpy.context.preferences` and the
window manager's default keyconfig.  The three fallible host accesses are
`pref.themes[0]` (IndexError on an empty theme collection),
`….face_select[3]` (IndexError on a color array shorter than 4) and
`pref.addons["cycles"]` (KeyError when the cycles addon is absent).  On
error, the partially mutated host is not observed by any claim, so only the
exception is modelled. -/
def setup_preferences (h : Host) : Except PyErr Host :=
  let pref := h.preferences
  let view := { pref.view with
    ui_scale := PyFloat.finite 105 2, ui_line_width := "AUTO",
    show_splash := false, show_tooltips := true, show_tooltips_python := true,
    show_developer_ui := false,
    language := "ja_JP", use_translate_tooltips := true,
    use_translate_interface := false, use_translate_new_dataname := false,
    gizmo_size := 120 }
  match pref.themes with
  | [] => .error .indexError
  | t0 :: trest =>
    if 3 < t0.view_3d.face_select.length then
      let t0 := { t0 with view_3d :=
        { face_select := t0.view_3d.face_select.set 3 (.finite 4 1) } }
      let inputs := { pref.inputs with
        use_numeric_input_advanced := true,
        mouse_double_click_time := 250, drag_threshold_mouse := 5,
        drag_threshold := 45, move_threshold := 3,
        ndof_show_guide := true, ndof_pan_yz_swap_axis := true,
        use_zoom_to_mouse := true }
      let wm := { keyconfigs_default :=
        { preferences := { spacebar_action := "SEARCH" } } }
      if pref.addons.any (fun p => p.1 == "cycles") then
        let addons := pref.addons.map (fun p =>
          if p.1 == "cycles" then
            (p.1, { p.2 with compute_device_type := "OPTIX" })
          else p)
        .ok { h with
          preferences :=
            { view := view, themes := t0 :: trest, inputs := inputs,
              addons := addons },
          window_manager := wm }
      else .error .keyError
    else .error .indexError

/-!
## Entry point (`if __name__ == "__main__":`)
-/

/-- Record the invocation of an infallible setter: apply it and append its
name to the invocation trace. -/
def invoke (name : String) (f : Host → Host) (st : Host × List String) :
    Host × List String :=
  (f st.1, st.2 ++ [name])

/-- Record the invocation of a fallible setter. -/
def invokeE (name : String) (f : Host → Except PyErr Host)
    (st : Host × List String) : Except PyErr (Host × List String) :=
  match f st.1 with
  | .ok h => .ok (h, st.2 ++ [name])
  | .error e => .error e

/-- The entry point: construct the settings object, check the version, and
either run the six setters in source order or print the unsupported-version
message.  Returns the final host state, the lines printed and the trace of
setter invocations, or the uncaught exception. -/
def runMain (host : Host) : Except PyErr (Host × List String × List String) :=
  match BlenderCustomSettings.init host.version_string with
  | .error e => .error e
  | .ok bcs =>
    if bcs.check_version then
      let st := (host, ([] : List String))
      let st := invoke "setup_scene_cycles" setup_scene_cycles st
      let st := invoke "setup_scene_shading" setup_scene_shading st
      let st := invoke "setup_scene_outliner" setup_scene_outliner st
      let st := invoke "setup_scene_clipping" setup_scene_clipping st
      let st := invoke "setup_scene_scripting" setup_scene_scripting st
      match invokeE "setup_preferences" setup_preferences st with
      | .error e => .error e
      | .ok st =>
        .ok (st.1, ["BlenderCustomSettings: Apply custom settings..."], st.2)
    else
      .ok (host, ["BlenderCustomSettings: Unsupported version!"], [])

/-!
## A one-pass characterization of `get_spaces`

`spaceTriples` flattens the host-provided traversal order over screens,
areas and spaces; `codeSelects` is the conjunction of the predicates the
code applies.  `get_spaces_eq_filter` proves the nested loops equal to a
single filter over that flattened traversal. -/

/-- All spaces of all areas of all screens, with their enclosing screen and
area, in host iteration order. -/
def spaceTriples (screens : List Screen) : List (Screen × Area × Space) :=
  screens.flatMap (fun sc =>
    sc.areas.flatMap (fun a => a.spaces.map (fun sp => (sc, a, sp))))

/-- The conjunction of predicates `get_spaces` applies to a space: the
screen-name filter when `screen_names` is truthy, the area-type and
space-type filters, and the display-mode filter when `display_mode` is
truthy. -/
def codeSelects (type_name : String) (display_mode : Option String)
    (screen_names : Option (List String)) (t : Screen × Area × Space) : Bool :=
  (if pyTruthyNames screen_names then (screen_names.getD []).contains t.1.name
   else true)
    && ((t.2.1.type == type_name)
    && ((t.2.2.type == type_name)
    && (if pyTruthyMode display_mode then
          t.2.2.display_mode == display_mode.getD ""
        else true)))

/-!
## Spec-side descriptions of `get_spaces`

`claim_get_spaces` follows the claimed contract word for word: the subset of
host-exposed spaces whose type equals the type name, whose display mode
equals the given one when a display mode is given, and whose enclosing
screen's name is among the given screen names when screen names are given,
in host iteration order.  `amended_get_spaces` is the amended contract: the
enclosing area's type must also equal the type name, and the optional
filters apply only when given and nonempty (Python truthiness). -/

def claim_get_spaces (data_screens : List Screen) (type_name : String)
    (display_mode : Option String) (screen_names : Option (List String)) :
    List Space :=
  ((spaceTriples data_screens).filter (fun t =>
    (t.2.2.type == type_name)
      && ((match display_mode with
           | some m => t.2.2.display_mode == m
           | none => true)
      && (match screen_names with
          | some ns => ns.contains t.1.name
          | none => true)))).map (fun t => t.2.2)

def amended_get_spaces (data_screens : List Screen) (type_name : String)
    (display_mode : Option String) (screen_names : Option (List String)) :
    List Space :=
  ((spaceTriples data_screens).filter
      (codeSelects type_name display_mode screen_names)).map (fun t => t.2.2)

/-- All spaces the host exposes, in iteration order. -/
def hostSpaces (h : Host) : List Space :=
  h.screens.flatMap (fun sc => sc.areas.flatMap (fun a => a.spaces))

/-- `get_spaces` as a statement-by-statement state transformer: the method
body reads `self` and `bpy.data.screens` and performs no assignment to
either, so it returns the result list together with the unchanged settings
object and host. -/
def runGetSpaces (bcs : BlenderCustomSettings) (h : Host) (type_name : String)
    (display_mode : Option String) (screen_names : Option (List String)) :
    List Space × BlenderCustomSettings × Host :=
  (get_spaces h.screens type_name display_mode screen_names, bcs, h)

/-!
## Concrete fixtures for witnesses and counterexamples
-/

def shading0 : ShadingSettings :=
  { type := "SOLID", light := "STUDIO", color_type := "MATERIAL",
    show_cavity := false, cavity_type := "SCREEN",
    cavity_ridge_factor := .finite 5 1, cavity_valley_factor := .finite 5 1,
    curvature_ridge_factor := .finite 5 1,
    curvature_valley_factor := .finite 5 1 }

def sp0 : Space :=
  { type := "VIEW_3D", display_mode := "", clip_start := .finite 1 1,
    clip_end := .finite 100 0, shading := shading0,
    show_restrict_column_select := false, show_restrict_column_render := false,
    font_size := 10 }

def spA : Space := { sp0 with font_size := 11 }

def spB : Space := { sp0 with font_size := 12, display_mode := "SORT_ALPHA" }

/-- A screen holding a `VIEW_3D`-typed space inside a `PROPERTIES` area and
another inside a `VIEW_3D` area. -/
def scCX : Screen :=
  { name := "S1",
    areas := [{ type := "PROPERTIES", spaces := [spA] },
              { type := "VIEW_3D", spaces := [spB] }] }

def theme0 : Theme :=
  { view_3d := { face_select := [.finite 0 0, .finite 0 0, .finite 0 0,
                                 .finite 1 0] } }

def scene0 : Scene :=
  { render := { engine := "BLENDER_EEVEE", threads_mode := "FIXED",
                tile_x := 64, tile_y := 64 },
    cycles := { feature_set := "SUPPORTED", device := "CPU",
                preview_dicing_rate := 8, preview_denoising := "OPTIX",
                samples := 64, preview_samples := 16,
                use_adaptive_sampling := false, max_bounces := 12,
                diffuse_bounces := 12, glossy_bounces := 12,
                transparent_max_bounces := 12, transmission_bounces := 12,
                volume_bounces := 12, caustics_reflective := false,
                caustics_refractive := false,
                use_progressive_refine := true } }

def viewLayer0 : ViewLayer :=
  { cycles := { use_denoising := false, use_optix_denoising := false,
                denoising_optix_input_passes := "RGB" } }

def prefs0 : Preferences :=
  { view := { ui_scale := .finite 1 0, ui_line_width := "THIN",
              show_splash := true, show_tooltips := true,
              show_tooltips_python := false, show_developer_ui := true,
              language := "en_US", use_translate_tooltips := false,
              use_translate_interface := true,
              use_translate_new_dataname := true, gizmo_size := 75 },
    themes := [theme0],
    inputs := { use_numeric_input_advanced := false,
                mouse_double_click_time := 350, drag_threshold_mouse := 3,
                drag_threshold := 30, move_threshold := 2,
                ndof_show_guide := false, ndof_pan_yz_swap_axis := false,
                use_zoom_to_mouse := false },
    addons := [("cycles", { compute_device_type := "NONE" })] }

def wm0 : WindowManager :=
  { keyconfigs_default := { preferences := { spacebar_action := "PLAY" } } }

/-- A well-formed host running a supported version (2.83.4). -/
def hostW : Host :=
  { version_string := "2.83.4", screens := [scCX],
    cameras := [{ clip_start := .finite 1 1, clip_end := .finite 100 0,
                  lens := .finite 50 0 }],
    scene := scene0, view_layer := viewLayer0, preferences := prefs0,
    window_manager := wm0 }

/-- The same host running unsupported version 2.90.0 (which still parses). -/
def hostU : Host := { hostW with version_string := "2.90.0" }

/-- The same host running version 3.0.0, whose four-character prefix
`"3.0."` is not a valid float numeral. -/
def hostBad : Host := { hostW with version_string := "3.0.0" }

/-- The settings object built from version string "2.83.4". -/
def bcs283 : BlenderCustomSettings :=
  { ver := .finite 283 2, supports := [supported283] }

/-- The settings object built from version string "2.90.0". -/
def bcs290 : BlenderCustomSettings :=
  { ver := .finite 290 2, supports := [supported283] }

/-- A host with a `VIEW_3D`-typed space inside a `PROPERTIES` area. -/
def hC6 : Host :=
  { hostW with
    screens := [{ name := "Layout",
                  areas := [{ type := "PROPERTIES", spaces := [spA] }] }],
    cameras := [] }

/-!
## Basic facts about the model
-/

/-- `pyEq` on finite floats is exactly equality of the rational values. -/
theorem pyEq_finite_iff (m1 m2 : Int) (s1 s2 : Nat) :
    pyEq (.finite m1 s1) (.finite m2 s2) = true ↔
      PyFloat.toRatOfFinite (.finite m1 s1) = PyFloat.toRatOfFinite (.finite m2 s2) := by
  simp only [pyEq, PyFloat.toRatOfFinite, beq_iff_eq]
  rw [div_eq_div_iff (by positivity) (by positivity)]
  constructor
  · intro h
    exact_mod_cast h
  · intro h
    exact_mod_cast h

example : pyFloatOfString "2.83" = .ok (.finite 283 2) := by decide
example : pyFloatOfString "3.0." = .error .valueError := by decide
example : pyFloatOfString "" = .error .valueError := by decide
example : pyFloatOfString "-2e1" = .ok (.finite (-20) 0) := by decide
example : classifyVersion "2.83.4" = .ok true := by decide
example : classifyVersion "2.90.0" = .ok false := by decide
example : classifyVersion "3.0.0" = .error .valueError := by decide

/-!
## Proof of the one-pass characterization
-/

theorem flatMap_const_nil {α β : Type} (l : List α) :
    (l.flatMap fun _ => ([] : List β)) = [] := by
  induction l with
  | nil => rfl
  | cons a l ih => simp [ih]

theorem flatMap_if_filter {α β : Type} (l : List α) (p : α → Bool)
    (f : α → List β) :
    (l.flatMap fun a => if p a then f a else []) = (l.filter p).flatMap f := by
  induction l with
  | nil => rfl
  | cons a l ih =>
    by_cases h : p a = true
    · simp [h, ih]
    · simp [h, ih]

theorem codeSelects_per_area (type_name : String) (display_mode : Option String)
    (screen_names : Option (List String)) (sc : Screen) (a : Area) :
    ((a.spaces.map (fun sp => (sc, a, sp))).filter
        (codeSelects type_name display_mode screen_names)).map (fun t => t.2.2)
      = if (if pyTruthyNames screen_names then
              (screen_names.getD []).contains sc.name
            else true) && (a.type == type_name) then
          spacesOfArea type_name display_mode a
        else [] := by
  rw [List.filter_map, List.map_map]
  have hpred : (codeSelects type_name display_mode screen_names ∘
      fun sp => (sc, a, sp))
      = fun sp : Space =>
        (if pyTruthyNames screen_names then
            (screen_names.getD []).contains sc.name
          else true)
          && ((a.type == type_name)
          && ((sp.type == type_name)
          && (if pyTruthyMode display_mode then
                sp.display_mode == display_mode.getD ""
              else true))) := rfl
  have hproj : ((fun t : Screen × Area × Space => t.2.2) ∘
      fun sp : Space => (sc, a, sp)) = fun sp : Space => sp := rfl
  rw [hpred, hproj, List.map_id']
  by_cases hC : (if pyTruthyNames screen_names then
      (screen_names.getD []).contains sc.name else true) = true
  · simp only [hC, Bool.true_and]
    by_cases hA : (a.type == type_name) = true
    · simp only [hA, Bool.true_and, if_pos]
      by_cases hM : pyTruthyMode display_mode = true
      · simp only [spacesOfArea, hM, if_pos, List.filter_filter]
        exact List.filter_congr fun sp _ => Bool.and_comm _ _
      · simp only [Bool.not_eq_true] at hM
        simp only [spacesOfArea, hM, Bool.false_eq_true, if_false, Bool.and_true]
    · simp only [Bool.not_eq_true] at hA
      simp only [hA, Bool.false_and, List.filter_false, Bool.false_eq_true,
        if_false]
  · simp only [Bool.not_eq_true] at hC
    simp only [hC, Bool.false_and, List.filter_false, Bool.false_eq_true,
      if_false]

theorem codeSelects_per_screen (type_name : String)
    (display_mode : Option String) (screen_names : Option (List String))
    (sc : Screen) :
    ((sc.areas.flatMap (fun a => a.spaces.map (fun sp => (sc, a, sp)))).filter
        (codeSelects type_name display_mode screen_names)).map (fun t => t.2.2)
      = if (if pyTruthyNames screen_names then
              (screen_names.getD []).contains sc.name
            else true) then
          spacesOfScreen type_name display_mode sc
        else [] := by
  rw [List.filter_flatMap, List.map_flatMap]
  simp only [codeSelects_per_area]
  by_cases hC : (if pyTruthyNames screen_names then
      (screen_names.getD []).contains sc.name else true) = true
  · simp only [hC, Bool.true_and, if_pos]
    rw [flatMap_if_filter]
    rfl
  · simp only [Bool.not_eq_true] at hC
    simp only [hC, Bool.false_and, Bool.false_eq_true, if_false,
      flatMap_const_nil]

/-- The nested loops of `get_spaces` compute a single one-pass filter of the
flattened space traversal. -/
theorem get_spaces_eq_filter (data_screens : List Screen) (type_name : String)
    (display_mode : Option String) (screen_names : Option (List String)) :
    get_spaces data_screens type_name display_mode screen_names
      = ((spaceTriples data_screens).filter
          (codeSelects type_name display_mode screen_names)).map
          (fun t => t.2.2) := by
  unfold spaceTriples
  rw [List.filter_flatMap, List.map_flatMap]
  simp only [codeSelects_per_screen]
  unfold get_spaces
  by_cases hT : pyTruthyNames screen_names = true
  · simp only [hT, if_pos]
    rw [flatMap_if_filter]
  · simp only [Bool.not_eq_true] at hT
    simp only [hT, Bool.false_eq_true, if_false, if_true]

/-!
## Claims about the version guard and `get_spaces`
-/

/-- Claim C3: `check_version` returns true iff the detected host version
(the first four characters of the host version string parsed by `float`)
is a member of the allow-list `self.supports`, which contains exactly the
value `2.83`. -/
theorem check_version_iff_ver_in_supports (s : String)
    (b : BlenderCustomSettings)
    (hinit : BlenderCustomSettings.init s = .ok b) :
    b.supports = [supported283] ∧
    pyFloatOfString (pySlice4 s) = .ok b.ver ∧
    (b.check_version = true ↔ pyEq b.ver supported283 = true) := by
  unfold BlenderCustomSettings.init at hinit
  cases hpf : pyFloatOfString (pySlice4 s) with
  | error e => rw [hpf] at hinit; cases hinit
  | ok v =>
    rw [hpf] at hinit
    cases hinit
    refine ⟨rfl, rfl, ?_⟩
    simp [BlenderCustomSettings.check_version, pyIn]

theorem check_version_iff_ver_in_supports_witness :
    BlenderCustomSettings.init "2.83.4" = .ok bcs283 ∧
    (bcs283.supports = [supported283] ∧
     pyFloatOfString (pySlice4 "2.83.4") = .ok bcs283.ver ∧
     (bcs283.check_version = true ↔ pyEq bcs283.ver supported283 = true)) :=
  ⟨by decide, check_version_iff_ver_in_supports "2.83.4" bcs283 (by decide)⟩

/-- Claim C10: the version guard depends only on the first four characters
of the host version string: classification (including a possible
constructor exception) is identical for strings sharing that prefix, and
every version string extending "2.83" is classified as supported. -/
theorem version_guard_depends_only_on_first_four_chars :
    (∀ s t : String, s.data.take 4 = t.data.take 4 →
      classifyVersion s = classifyVersion t) ∧
    (∀ r : List Char,
      classifyVersion (String.mk ('2' :: '.' :: '8' :: '3' :: r)) = .ok true) := by
  constructor
  · intro s t hst
    unfold classifyVersion BlenderCustomSettings.init pySlice4
    rw [hst]
  · intro r
    have h4 : pySlice4 (String.mk ('2' :: '.' :: '8' :: '3' :: r))
        = String.mk ['2', '.', '8', '3'] := rfl
    unfold classifyVersion BlenderCustomSettings.init
    rw [h4]
    decide

theorem version_guard_depends_only_on_first_four_chars_witness :
    ("2.83.4" : String).data.take 4 = ("2.83alpha" : String).data.take 4 ∧
    classifyVersion "2.83.4" = classifyVersion "2.83alpha" :=
  ⟨by decide,
    version_guard_depends_only_on_first_four_chars.1 "2.83.4" "2.83alpha"
      (by decide)⟩

/-- Claim C4 (counterexample): with `screen_names = []`, `display_mode = ""`
and a `VIEW_3D` space inside a `PROPERTIES` area, `get_spaces` differs from
the claimed subset: the claimed subset is empty (no screen name is among
`[]`), while the code skips the falsy screen-name and display-mode filters
and returns the space of the `VIEW_3D` area; the space of the `PROPERTIES`
area is dropped by the area-type filter the claim omits, and the
display-mode filter the claim would apply to `""` is skipped. -/
theorem get_spaces_claim_subset_counterexample :
    get_spaces [scCX] "VIEW_3D" (some "") (some [])
      ≠ claim_get_spaces [scCX] "VIEW_3D" (some "") (some []) := by decide

/-- Claim C4 (amended): `get_spaces` returns exactly the subset of
host-exposed spaces that lie in an area whose type equals the type name,
whose own type equals the type name, whose display mode equals the given
one when a nonempty display mode is given, and whose enclosing screen's
name is among the given screen names when a nonempty screen-name list is
given, preserving the host-provided iteration order over screens, areas
and spaces. -/
theorem get_spaces_eq_amended_subset (data_screens : List Screen)
    (type_name : String) (display_mode : Option String)
    (screen_names : Option (List String)) :
    get_spaces data_screens type_name display_mode screen_names
      = amended_get_spaces data_screens type_name display_mode screen_names :=
  get_spaces_eq_filter data_screens type_name display_mode screen_names

/-- Claim C7: `get_spaces` is stateless and deterministic: run as a state
transformer it leaves the settings object and the host unchanged, and a
second call with the same arguments on the resulting state returns the
same list. -/
theorem get_spaces_stateless_deterministic (bcs : BlenderCustomSettings)
    (h : Host) (type_name : String) (display_mode : Option String)
    (screen_names : Option (List String)) :
    (runGetSpaces bcs h type_name display_mode screen_names).2.1 = bcs ∧
    (runGetSpaces bcs h type_name display_mode screen_names).2.2 = h ∧
    (runGetSpaces (runGetSpaces bcs h type_name display_mode screen_names).2.1
        (runGetSpaces bcs h type_name display_mode screen_names).2.2
        type_name display_mode screen_names).1
      = (runGetSpaces bcs h type_name display_mode screen_names).1 :=
  ⟨rfl, rfl, rfl⟩

/-- Claim C8: when no space (with its enclosing area and screen) satisfies
the predicates the code applies, `get_spaces` returns the empty list; the
function is total, so no exception arises. -/
theorem get_spaces_empty_when_no_match (data_screens : List Screen)
    (type_name : String) (display_mode : Option String)
    (screen_names : Option (List String))
    (hnone : (spaceTriples data_screens).filter
        (codeSelects type_name display_mode screen_names) = []) :
    get_spaces data_screens type_name display_mode screen_names = [] := by
  rw [get_spaces_eq_filter, hnone]
  rfl

theorem get_spaces_empty_when_no_match_witness :
    (spaceTriples [scCX]).filter (codeSelects "CONSOLE" none none) = [] ∧
    get_spaces [scCX] "CONSOLE" none none = [] :=
  ⟨by decide,
    get_spaces_empty_when_no_match [scCX] "CONSOLE" none none (by decide)⟩

/-- Claim C9: passing `screen_names = []` behaves exactly like omitting the
argument: the empty list is falsy, the screen-name filter is skipped, and
every host screen is searched. -/
theorem get_spaces_empty_screen_names_like_none (data_screens : List Screen)
    (type_name : String) (display_mode : Option String) :
    get_spaces data_screens type_name display_mode (some [])
      = get_spaces data_screens type_name display_mode none := rfl

/-!
## Claims about the entry point and the clipping setter
-/

/-- Claim C1: when the detected version parses but is absent from the
supported list, the entry point prints exactly
"BlenderCustomSettings: Unsupported version!", invokes no setter (empty
invocation trace) and performs no mutation of host state (the returned host
equals the input host). -/
theorem main_unsupported_prints_and_preserves_host (h : Host)
    (b : BlenderCustomSettings)
    (hinit : BlenderCustomSettings.init h.version_string = .ok b)
    (hcv : b.check_version = false) :
    runMain h = .ok (h, ["BlenderCustomSettings: Unsupported version!"], []) := by
  unfold runMain
  rw [hinit]
  simp [hcv]

theorem main_unsupported_prints_and_preserves_host_witness :
    BlenderCustomSettings.init hostU.version_string = .ok bcs290 ∧
    bcs290.check_version = false ∧
    runMain hostU
      = .ok (hostU, ["BlenderCustomSettings: Unsupported version!"], []) :=
  ⟨by decide, by decide,
    main_unsupported_prints_and_preserves_host hostU bcs290 (by decide)
      (by decide)⟩

/-- Claim C5 (counterexample): for the host version string "3.0.0" the
constructor's `float("3.0.")` call raises `ValueError`, so the
unsupported-version path is not fail-soft for every host version string. -/
theorem runMain_version_parse_error_counterexample :
    runMain hostBad = .error .valueError := by decide

/-- Claim C5 (amended): for every host version string whose first four
characters parse as a Python float, the unsupported path is fail-soft:
constructing the settings object, evaluating the version check and taking
the else-branch raises no exception. -/
theorem unsupported_path_fail_soft_when_parseable (h : Host)
    (b : BlenderCustomSettings)
    (hinit : BlenderCustomSettings.init h.version_string = .ok b)
    (hcv : b.check_version = false) :
    ∃ r, runMain h = .ok r := by
  unfold runMain
  rw [hinit]
  simp [hcv]

theorem unsupported_path_fail_soft_when_parseable_witness :
    BlenderCustomSettings.init hostU.version_string = .ok bcs290 ∧
    bcs290.check_version = false ∧ (∃ r, runMain hostU = .ok r) :=
  ⟨by decide, by decide,
    unsupported_path_fail_soft_when_parseable hostU bcs290 (by decide)
      (by decide)⟩

/-- Claim C6 (counterexample): after `setup_scene_clipping`, the host
`hC6` still exposes a space of type `VIEW_3D` whose `clip_start` is not
`0.001`, because that space lies in an area of type `PROPERTIES` and the
`get_spaces`-based loop never reaches it. -/
theorem setup_scene_clipping_claim_counterexample :
    (hostSpaces (setup_scene_clipping hC6)).filter
        (fun sp => sp.type == "VIEW_3D" && !(pyEq sp.clip_start (.finite 1 3)))
      ≠ [] := by decide

/-- Claim C6 (amended): `setup_scene_clipping` assigns
`clip_start = 0.001` and `clip_end = 1000` to every host-exposed space of
type `VIEW_3D` that lies in an area of type `VIEW_3D`, and to every camera
in the host's camera collection, and assigns nothing else: all other
spaces, all other space and camera fields, and every other host component
are unchanged. -/
theorem setup_scene_clipping_amended_assigns (h : Host) :
    (setup_scene_clipping h).version_string = h.version_string ∧
    (setup_scene_clipping h).scene = h.scene ∧
    (setup_scene_clipping h).view_layer = h.view_layer ∧
    (setup_scene_clipping h).preferences = h.preferences ∧
    (setup_scene_clipping h).window_manager = h.window_manager ∧
    (setup_scene_clipping h).cameras
      = h.cameras.map (fun cam =>
          { cam with clip_start := .finite 1 3, clip_end := .finite 1000 0 }) ∧
    List.Forall₂ (fun sc sc' => sc'.name = sc.name ∧
        List.Forall₂ (fun a a' => a'.type = a.type ∧
            List.Forall₂ (fun sp sp' =>
                sp' = if a.type = "VIEW_3D" ∧ sp.type = "VIEW_3D" then
                        applyClipping sp
                      else sp)
              a.spaces a'.spaces)
          sc.areas sc'.areas)
      h.screens (setup_scene_clipping h).screens := by
  refine ⟨rfl, rfl, rfl, rfl, rfl, rfl, ?_⟩
  show List.Forall₂ _ h.screens (h.screens.map _)
  rw [List.forall₂_map_right_iff, List.forall₂_same]
  intro sc _
  refine ⟨rfl, ?_⟩
  rw [List.forall₂_map_right_iff, List.forall₂_same]
  intro a _
  by_cases hA : (a.type == "VIEW_3D") = true
  · have hA' : a.type = "VIEW_3D" := by rwa [beq_iff_eq] at hA
    simp only [hA, if_true]
    refine ⟨by trivial, ?_⟩
    rw [List.forall₂_map_right_iff, List.forall₂_same]
    intro sp _
    by_cases hS : (sp.type == "VIEW_3D") = true
    · have hS' : sp.type = "VIEW_3D" := by rwa [beq_iff_eq] at hS
      simp [hS, hA', hS']
    · have hS' : ¬sp.type = "VIEW_3D" := by
        simpa [beq_iff_eq] using hS
      simp only [Bool.not_eq_true] at hS
      simp [hS, hS']
  · have hA' : ¬a.type = "VIEW_3D" := by
      simpa [beq_iff_eq] using hA
    simp only [Bool.not_eq_true] at hA
    simp only [hA, Bool.false_eq_true, if_false]
    refine ⟨by trivial, ?_⟩
    rw [List.forall₂_same]
    intro sp _
    simp [hA']

/-!
## Claim C2: the supported path
-/

/-- On a host whose preferences are well-formed (nonempty theme list whose
first theme's `face_select` has more than 3 components, and a registered
cycles addon), `setup_preferences` succeeds. -/
theorem setup_preferences_ok (h : Host) (t0 : Theme) (trest : List Theme)
    (hth : h.preferences.themes = t0 :: trest)
    (hfs : 3 < t0.view_3d.face_select.length)
    (hcy : h.preferences.addons.any (fun p => p.1 == "cycles") = true) :
    ∃ h', setup_preferences h = .ok h' := by
  cases hok : setup_preferences h with
  | ok h' => exact ⟨h', rfl⟩
  | error e =>
    simp only [setup_preferences, hth, hfs, if_true, hcy] at hok
    exact Except.noConfusion hok

/-- Claim C2: when the detected version is in the supported list (and the
host preferences are well-formed, as any stock host's are), the entry point
invokes the six setters exactly once each, in source order
(cycles, shading, outliner, clipping, scripting, preferences), and no
exception propagates (the run returns `ok`). -/
theorem main_supported_invokes_six_setters_in_order (h : Host)
    (b : BlenderCustomSettings) (t0 : Theme) (trest : List Theme)
    (hinit : BlenderCustomSettings.init h.version_string = .ok b)
    (hcv : b.check_version = true)
    (hth : h.preferences.themes = t0 :: trest)
    (hfs : 3 < t0.view_3d.face_select.length)
    (hcy : h.preferences.addons.any (fun p => p.1 == "cycles") = true) :
    ∃ h' : Host,
      runMain h = .ok (h',
        ["BlenderCustomSettings: Apply custom settings..."],
        ["setup_scene_cycles", "setup_scene_shading", "setup_scene_outliner",
         "setup_scene_clipping", "setup_scene_scripting",
         "setup_preferences"]) := by
  obtain ⟨h6, hsp⟩ := setup_preferences_ok
    (setup_scene_scripting (setup_scene_clipping (setup_scene_outliner
      (setup_scene_shading (setup_scene_cycles h))))) t0 trest hth hfs hcy
  refine ⟨h6, ?_⟩
  unfold runMain
  rw [hinit]
  simp only [hcv, if_true, invoke, invokeE]
  rw [hsp]
  rfl

theorem main_supported_invokes_six_setters_in_order_witness :
    BlenderCustomSettings.init hostW.version_string = .ok bcs283 ∧
    bcs283.check_version = true ∧
    hostW.preferences.themes = theme0 :: [] ∧
    3 < theme0.view_3d.face_select.length ∧
    hostW.preferences.addons.any (fun p => p.1 == "cycles") = true ∧
    (∃ h' : Host,
      runMain hostW = .ok (h',
        ["BlenderCustomSettings: Apply custom settings..."],
        ["setup_scene_cycles", "setup_scene_shading", "setup_scene_outliner",
         "setup_scene_clipping", "setup_scene_scripting",
         "setup_preferences"])) :=
  ⟨by decide, by decide, by decide, by decide, by decide,
    main_supported_invokes_six_setters_in_order hostW bcs283 theme0 []
      (by decide) (by decide) (by decide) (by decide) (by decide)⟩

/-!
## Coherence checks of the setter modelling

Concrete evidence that the guarded maps used to model in-place mutation of
`get_spaces` results agree with `get_spaces` selection: after
`setup_scene_clipping`, the spaces `get_spaces("VIEW_3D")` selects are
exactly the previously selected ones with the clip assignments applied, and
similarly for the shading call with its screen-name list. -/

example :
    get_spaces (setup_scene_clipping hostW).screens "VIEW_3D" none none
      = (get_spaces hostW.screens "VIEW_3D" none none).map applyClipping := by
  decide

example :
    get_spaces (setup_scene_shading hostW).screens "VIEW_3D" none
        (some shadingTargetScreens)
      = (get_spaces hostW.screens "VIEW_3D" none
          (some shadingTargetScreens)).map applyShading := by
  decide

example :
    get_spaces (setup_scene_scripting hostW).screens "CONSOLE" none none
      = (get_spaces hostW.screens "CONSOLE" none none).map
          (fun sp => { sp with font_size := 16 }) := by
  decide
